import Mathlib

/-!
Verification of the configuration / client-assembly layer of the
ysicing/openai repository (package `openai`), shallowly embedded in Lean.

Sources embedded here:
  * `openai/options.go`   — option functions, `config`, `valid`, `newConfig`
  * `openai/client.go`    — `NewHeaders` (header-string parsing)
  * `openai/openai.go`    — `New` (client assembly), request builders,
    `Completion` / `ImageCompletion` convenience wrappers
    (the revision whose `Completion` takes `(prompt, content)` and whose
    Azure mapper returns `cfg.model`; the other revision in the tree
    references a nonexistent `cfg.modelName` field and cannot compile
    against `options.go`, so it is not the live code).

Modelling conventions: Go `float32` fields are modelled as `Rat` (the only
operations performed on them are comparison with zero and assignment, both
exact); `time.Duration` and `int` as `Int`; the external network call is a
parameter of type `Except String ChatCompletionResponse`; the external
`url.Parse` and `proxy.SOCKS5` calls are oracle parameters; a Go slice
index that can be out of range is modelled by an explicit `panic` outcome
constructor.
-/

set_option autoImplicit false

namespace YsicingOpenAI

/-- Constant `OPENAI` from options.go (deprecated alias of `OpenAI`). -/
def OPENAI : String := "openai"

/-- Constant `OpenAI` from options.go. -/
def OpenAI : String := "openai"

/-- Constant `AZURE` from options.go (deprecated alias of `Azure`). -/
def AZURE : String := "azure"

/-- Constant `Azure` from options.go. -/
def Azure : String := "azure"

/-- Constant `DEEPSEEK` from options.go (deprecated alias of `DeepSeek`). -/
def DEEPSEEK : String := "deepseek"

/-- Constant `DeepSeek` from options.go. -/
def DeepSeek : String := "deepseek"

/-- Constant `ZhiPu` from options.go. -/
def ZhiPu : String := "zhipu"

/-- Constant `DeepseekChat` from openai.go. -/
def DeepseekChat : String := "deepseek-chat"

/-- Constant `DeepseekCoder` from openai.go. -/
def DeepseekCoder : String := "deepseek-coder"

/-- Constant `ZhiPuGlmFree` from openai.go. -/
def ZhiPuGlmFree : String := "glm-4-flash"

/-- Default max tokens (options.go `defaultMaxTokens = 2000`). -/
def defaultMaxTokens : Int := 2000

/-- Default model (options.go `defaultModel = openai.GPT4oMini`). -/
def defaultModel : String := "gpt-4o-mini"

/-- Default temperature (options.go `defaultTemperature = 1.0`). -/
def defaultTemperature : Rat := 1

/-- Default provider (options.go `defaultProvider = OpenAI`). -/
def defaultProvider : String := OpenAI

/-- Default top-p (options.go `defaultTopP = 1.0`). -/
def defaultTopP : Rat := 1

/-- The `config` struct of options.go, field for field. -/
structure config where
  baseURL : String
  token : String
  orgID : String
  model : String
  proxyURL : String
  socksURL : String
  timeout : Int
  maxTokens : Int
  temperature : Rat
  topP : Rat
  presencePenalty : Rat
  frequencyPenalty : Rat
  provider : String
  skipVerify : Bool
  headers : List String
  apiVersion : String
deriving DecidableEq

/-- The base config built at the top of `newConfig`: Go zero values for every
field except the four explicitly initialised ones. -/
def baseConfig : config :=
  { baseURL := "", token := "", orgID := "", model := "", proxyURL := ""
  , socksURL := "", timeout := 0
  , maxTokens := defaultMaxTokens, temperature := defaultTemperature
  , topP := defaultTopP, presencePenalty := 0, frequencyPenalty := 0
  , provider := defaultProvider, skipVerify := false, headers := []
  , apiVersion := "" }

/-- An applied option: each Go option closure writes one captured value into
one field of the config. The `With...` wrapper functions below build these
values exactly as the Go constructors do (any value adjustment happens in
the wrapper, as in the source, where it happens before the closure is
built). -/
inductive Opt where
  | setToken (s : String)
  | setOrgID (s : String)
  | setModel (s : String)
  | setProxyURL (s : String)
  | setSocksURL (s : String)
  | setBaseURL (s : String)
  | setTimeout (v : Int)
  | setMaxTokens (v : Int)
  | setTemperature (v : Rat)
  | setProvider (s : String)
  | setSkipVerify (b : Bool)
  | setHeaders (hs : List String)
  | setApiVersion (s : String)
  | setTopP (v : Rat)
  | setPresencePenalty (v : Rat)
  | setFrequencyPenalty (v : Rat)
deriving DecidableEq

/-- The `apply` method: each option mutates its one field. -/
def Opt.apply : Opt → config → config
  | .setToken s, c => { c with token := s }
  | .setOrgID s, c => { c with orgID := s }
  | .setModel s, c => { c with model := s }
  | .setProxyURL s, c => { c with proxyURL := s }
  | .setSocksURL s, c => { c with socksURL := s }
  | .setBaseURL s, c => { c with baseURL := s }
  | .setTimeout v, c => { c with timeout := v }
  | .setMaxTokens v, c => { c with maxTokens := v }
  | .setTemperature v, c => { c with temperature := v }
  | .setProvider s, c => { c with provider := s }
  | .setSkipVerify b, c => { c with skipVerify := b }
  | .setHeaders hs, c => { c with headers := hs }
  | .setApiVersion s, c => { c with apiVersion := s }
  | .setTopP v, c => { c with topP := v }
  | .setPresencePenalty v, c => { c with presencePenalty := v }
  | .setFrequencyPenalty v, c => { c with frequencyPenalty := v }

/-- Go `WithToken`. -/
def WithToken (val : String) : Opt := .setToken val

/-- Go `WithOrgID`. -/
def WithOrgID (val : String) : Opt := .setOrgID val

/-- Go `WithModel`. -/
def WithModel (val : String) : Opt := .setModel val

/-- Go `WithProxyURL`. -/
def WithProxyURL (val : String) : Opt := .setProxyURL val

/-- Go `WithSocksURL`. -/
def WithSocksURL (val : String) : Opt := .setSocksURL val

/-- Go `WithBaseURL`. -/
def WithBaseURL (val : String) : Opt := .setBaseURL val

/-- Go `WithTimeout`. -/
def WithTimeout (val : Int) : Opt := .setTimeout val

/-- Go `WithMaxTokens`: a value of zero or less is replaced by the default
before the closure captures it. -/
def WithMaxTokens (val : Int) : Opt :=
  .setMaxTokens (if val ≤ 0 then defaultMaxTokens else val)

/-- Go `WithTemperature`: a value of zero or less is replaced by the default
before the closure captures it. -/
def WithTemperature (val : Rat) : Opt :=
  .setTemperature (if val ≤ 0 then defaultTemperature else val)

/-- Go `WithProvider`: the switch keeps `OpenAI`, `Azure`, `DeepSeek` and
`ZhiPu` unchanged and replaces every other string by `defaultProvider`. -/
def WithProvider (val : String) : Opt :=
  .setProvider
    (if val = OpenAI ∨ val = Azure ∨ val = DeepSeek ∨ val = ZhiPu then val
     else defaultProvider)

/-- Go `WithSkipVerify`. -/
def WithSkipVerify (val : Bool) : Opt := .setSkipVerify val

/-- Go `WithHeaders`. -/
def WithHeaders (headers : List String) : Opt := .setHeaders headers

/-- Go `WithApiVersion`. -/
def WithApiVersion (apiVersion : String) : Opt := .setApiVersion apiVersion

/-- Go `WithTopP`. -/
def WithTopP (val : Rat) : Opt := .setTopP val

/-- Go `WithPresencePenalty`. -/
def WithPresencePenalty (val : Rat) : Opt := .setPresencePenalty val

/-- Go `WithFrequencyPenalty`. -/
def WithFrequencyPenalty (val : Rat) : Opt := .setFrequencyPenalty val

/-- Application of a list of options in order (the loop in `newConfig`). -/
def applyOpts (c : config) (opts : List Opt) : config :=
  opts.foldl (fun c o => o.apply c) c

/-- Go `newConfig`: defaults, then each option applied in order. -/
def newConfig (opts : List Opt) : config :=
  applyOpts baseConfig opts

/-- The single possible validation error of `valid` (the Go
`errorsMissingToken` value, i.e. the MissingCredential error). -/
inductive ValidErr where
  | missingToken
deriving DecidableEq

/-- Go `config.valid`: the Go method mutates `cfg.model` in place and
returns an error or nil; it is modelled as returning the updated config or
the error. -/
def valid (cfg : config) : Except ValidErr config :=
  if cfg.token = "" then .error .missingToken
  else if cfg.provider = DEEPSEEK ∨ cfg.provider = DeepSeek then
    .ok { cfg with model := DeepseekChat }
  else if cfg.provider = ZhiPu then
    (if cfg.model.length = 0 then .ok { cfg with model := ZhiPuGlmFree }
     else .ok cfg)
  else if (cfg.provider = OpenAI ∨ cfg.provider = Azure) ∧ cfg.model.length = 0 then
    .ok { cfg with model := defaultModel }
  else .ok cfg

/-- Go `unicode.IsSpace` restricted to the characters that can appear in
header strings; matches the Go predicate on all of ASCII plus the two
Latin-1 space characters. -/
def isGoSpace (c : Char) : Bool :=
  c.toNat = 32 ∨ (9 ≤ c.toNat ∧ c.toNat ≤ 13) ∨ c.toNat = 133 ∨ c.toNat = 160

/-- Go `strings.TrimSpace` on the character list. -/
def trimSpaceChars (cs : List Char) : List Char :=
  ((cs.dropWhile isGoSpace).reverse.dropWhile isGoSpace).reverse

/-- Go `strings.TrimSpace`. -/
def trimSpace (s : String) : String :=
  (trimSpaceChars s.toList).asString

/-- Split a character list at the first occurrence of the equals sign,
returning the parts before and after it; `none` when there is no equals
sign. This is Go `strings.SplitN(s, "=", 2)`: `none` corresponds to the
one-element result (no separator), `some` to the two-element result. -/
def splitFirstEq : List Char → Option (List Char × List Char)
  | [] => none
  | c :: rest =>
    if c = Char.ofNat 61 then some ([], rest)
    else (splitFirstEq rest).map (fun p => (c :: p.1, p.2))

/-- Predicate for bytes allowed in a MIME header field name, from Go
`net/textproto` `validHeaderFieldByte` (the token characters of RFC 7230):
digits, letters, and the punctuation set of `isTokenTable`. -/
def validHeaderFieldChar (c : Char) : Bool :=
  let n := c.toNat
  (48 ≤ n ∧ n ≤ 57) ∨ (65 ≤ n ∧ n ≤ 90) ∨ (97 ≤ n ∧ n ≤ 122) ∨
  n = 33 ∨ (35 ≤ n ∧ n ≤ 39) ∨ n = 42 ∨ n = 43 ∨ n = 45 ∨ n = 46 ∨
  n = 94 ∨ n = 95 ∨ n = 96 ∨ n = 124 ∨ n = 126

/-- Case-folding loop of Go `textproto.CanonicalMIMEHeaderKey`: uppercase
the first letter and every letter following a hyphen, lowercase the rest. -/
def canonicalChars : List Char → Bool → List Char
  | [], _ => []
  | c :: rest, upper =>
    let d := if upper then c.toUpper else c.toLower
    d :: canonicalChars rest (d = Char.ofNat 45)

/-- Go `textproto.CanonicalMIMEHeaderKey`: returned unchanged when any
character is not a valid header-field byte, canonicalised otherwise. -/
def canonicalMIMEHeaderKey (s : String) : String :=
  if s.toList.any (fun c => ¬ validHeaderFieldChar c) then s
  else (canonicalChars s.toList true).asString

/-- Go `http.Header`: a map from canonical header keys to value lists,
modelled as an association list in first-insertion order (the Go map is
unordered; lookups agree). -/
abbrev Header : Type := List (String × List String)

/-- Go `http.Header.Add`: canonicalise the key, then append the value to
the entry for that key, creating it if absent. -/
def Header.add (h : Header) (key value : String) : Header :=
  let k := canonicalMIMEHeaderKey key
  if (h.map (fun p => p.1)).contains k then
    h.map (fun p => if p.1 = k then (p.1, p.2 ++ [value]) else p)
  else h ++ [(k, [value])]

/-- Go `NewHeaders` from client.go: split each entry on the first equals
sign, skip entries without one, trim both parts, skip empty keys, and add
the rest. -/
def NewHeaders (headers : List String) : Header :=
  headers.foldl
    (fun h header =>
      match splitFirstEq header.toList with
      | none => h
      | some (k, v) =>
        let key := trimSpace k.asString
        let value := trimSpace v.asString
        if key = "" then h else h.add key value)
    ([] : Header)

/-- Outcome of attaching a proxy to the transport in `New`: no proxy, an
HTTP proxy (carrying the result of `url.Parse`, whose error is discarded,
so a failed parse is `none`), or a SOCKS5 dialer. -/
inductive Transport where
  | plain
  | httpProxy (parsed : Option String)
  | socks5 (addr : String)
deriving DecidableEq

/-- Errors `New` can return: the validation error, or the wrapped SOCKS5
dialer-construction error (Go wraps it with added context text). -/
inductive NewErr where
  | invalidConfig (e : ValidErr)
  | proxyUnreachable (msg : String)
deriving DecidableEq

/-- Official OpenAI endpoint, the `BaseURL` set by the SDK function
`openai.DefaultConfig`. -/
def officialBaseURL : String := "https://api.openai.com/v1"

/-- Built-in DeepSeek endpoint from the `DeepSeek` case of `New`. -/
def deepseekBaseURL : String := "https://api.deepseek.com"

/-- Built-in ZhiPu endpoint from the `ZhiPu` case of `New`. -/
def zhipuBaseURL : String := "https://open.bigmodel.cn/api/paas/v4/"

/-- Default Azure API version set by the SDK function
`openai.DefaultAzureConfig`. -/
def azureDefaultApiVersion : String := "2023-05-15"

/-- Which case of the provider switch in `New` runs. -/
inductive ProviderCase where
  | azureCase
  | deepseekCase
  | zhipuCase
  | openaiCompatible
deriving DecidableEq

/-- The provider switch of `New` (part of client construction): `Azure`,
`DeepSeek` and `ZhiPu` each select their own case; every other provider
string falls through to the default OpenAI-compatible case. -/
def providerCase (cfg : config) : ProviderCase :=
  if cfg.provider = Azure then .azureCase
  else if cfg.provider = DeepSeek then .deepseekCase
  else if cfg.provider = ZhiPu then .zhipuCase
  else .openaiCompatible

/-- Base URL of the SDK client config assembled by `New`: the default case
starts from `DefaultConfig` (official endpoint, overridden by a non-empty
`cfg.baseURL`); the DeepSeek and ZhiPu cases substitute their built-in
endpoints when no base URL was given; the Azure case passes `cfg.baseURL`
to `DefaultAzureConfig`. -/
def sdkBaseURL (cfg : config) : String :=
  match providerCase cfg with
  | .azureCase => cfg.baseURL
  | .deepseekCase => if cfg.baseURL = "" then deepseekBaseURL else cfg.baseURL
  | .zhipuCase => if cfg.baseURL = "" then zhipuBaseURL else cfg.baseURL
  | .openaiCompatible => if cfg.baseURL = "" then officialBaseURL else cfg.baseURL

/-- API version of the SDK client config assembled by `New`: only the Azure
and default cases consult `cfg.apiVersion`; Azure falls back to the SDK
default. -/
def sdkApiVersion (cfg : config) : String :=
  match providerCase cfg with
  | .azureCase => if cfg.apiVersion = "" then azureDefaultApiVersion else cfg.apiVersion
  | .deepseekCase => ""
  | .zhipuCase => ""
  | .openaiCompatible => cfg.apiVersion

/-- The `AzureModelMapperFunc` installed by the Azure case of `New`: a
constant function returning `cfg.model` for every input; absent in the
other cases. -/
def azureMapperOf (cfg : config) : Option (String → String) :=
  match providerCase cfg with
  | .azureCase => some (fun _ => cfg.model)
  | _ => none

/-- Proxy attachment in `New`: a non-empty HTTP proxy URL wins (its
`url.Parse` error is discarded); otherwise a non-empty SOCKS5 address
requires the dialer construction to succeed, failing with the wrapped
proxy error when it does not; otherwise the transport is left plain. The
two external calls are oracle parameters. -/
def buildTransport (parseURL : String → Option String)
    (socks5Dial : String → Except String Unit) (cfg : config) :
    Except NewErr Transport :=
  if cfg.proxyURL ≠ "" then .ok (.httpProxy (parseURL cfg.proxyURL))
  else if cfg.socksURL ≠ "" then
    match socks5Dial cfg.socksURL with
    | .error e => .error (.proxyUnreachable ("cannot connect to the proxy: " ++ e))
    | .ok _ => .ok (.socks5 cfg.socksURL)
  else .ok .plain

/-- The observable result of `New`: the `Client` struct fields that `New`
fills in (only `model`, `maxTokens` and `temperature` are copied from the
config — the penalty and top-p fields of `Client` are left at their zero
values by this revision of `New`), together with the SDK-config and
transport data assembled around it. -/
structure ClientModel where
  model : String
  maxTokens : Int
  temperature : Rat
  topP : Rat
  presencePenalty : Rat
  frequencyPenalty : Rat
  branch : ProviderCase
  sdkBase : String
  apiVersion : String
  azureMapper : Option (String → String)
  transport : Transport
  headerSet : Header
  skipVerify : Bool
  timeout : Int

/-- Assembly of the client value from a validated config and a built
transport (the tail of `New`). -/
def assemble (cfg : config) (tr : Transport) : ClientModel :=
  { model := cfg.model, maxTokens := cfg.maxTokens
  , temperature := cfg.temperature
  , topP := 0, presencePenalty := 0, frequencyPenalty := 0
  , branch := providerCase cfg, sdkBase := sdkBaseURL cfg
  , apiVersion := sdkApiVersion cfg, azureMapper := azureMapperOf cfg
  , transport := tr, headerSet := NewHeaders cfg.headers
  , skipVerify := cfg.skipVerify, timeout := cfg.timeout }

/-- Go `New` from openai.go: build the config from the options, validate
it, build the transport (possibly failing on the SOCKS5 path), then
assemble the provider-specific client. -/
def New (parseURL : String → Option String)
    (socks5Dial : String → Except String Unit) (opts : List Opt) :
    Except NewErr ClientModel :=
  match valid (newConfig opts) with
  | .error e => .error (.invalidConfig e)
  | .ok cfg =>
    match buildTransport parseURL socks5Dial cfg with
    | .error e => .error e
    | .ok tr => .ok (assemble cfg tr)

/-- SDK constant `openai.ChatMessageRoleSystem`. -/
def ChatMessageRoleSystem : String := "system"

/-- SDK constant `openai.ChatMessageRoleUser`. -/
def ChatMessageRoleUser : String := "user"

/-- Default system prompt substituted by `CreateChatCompletion` when the
caller passes an empty prompt. -/
def defaultSystemPrompt : String := "You are a helpful assistant."

/-- A chat message (role and text content; the multi-part image content of
the image path is not needed by the claims settled here). -/
structure ChatMessage where
  role : String
  content : String
deriving DecidableEq

/-- Usage accounting triple of the SDK response. -/
structure Usage where
  promptTokens : Int
  completionTokens : Int
  totalTokens : Int
deriving DecidableEq

/-- One candidate choice of a chat-completion response. -/
structure ChatChoice where
  message : ChatMessage
deriving DecidableEq

/-- The SDK chat-completion response: candidate list plus usage. -/
structure ChatCompletionResponse where
  choices : List ChatChoice
  usage : Usage
deriving DecidableEq

/-- The `Response` struct of openai.go. -/
structure Response where
  content : String
  usage : Usage
deriving DecidableEq

/-- The request record built by `CreateChatCompletion` and friends. -/
structure ChatCompletionRequest where
  model : String
  maxTokens : Int
  temperature : Rat
  topP : Rat
  frequencyPenalty : Rat
  presencePenalty : Rat
  messages : List ChatMessage
deriving DecidableEq

/-- Request construction of `CreateChatCompletion` (openai.go): empty
prompt replaced by the default system prompt, then a two-message list
[system, user]. The network send is not modelled; this is the request
value passed to it. -/
def CreateChatCompletionRequest (c : ClientModel) (prompt content : String) :
    ChatCompletionRequest :=
  let prompt := if prompt.length = 0 then defaultSystemPrompt else prompt
  { model := c.model, maxTokens := c.maxTokens, temperature := c.temperature
  , topP := c.topP, frequencyPenalty := c.frequencyPenalty
  , presencePenalty := c.presencePenalty
  , messages :=
      [ { role := ChatMessageRoleSystem, content := prompt }
      , { role := ChatMessageRoleUser, content := content } ] }

/-- Result of running a convenience wrapper against a backend reply: a
returned value, a returned error, or a Go runtime panic (the out-of-range
slice index). -/
inductive Outcome (α : Type) where
  | ok (a : α)
  | err (e : String)
  | panicked
deriving DecidableEq

/-- Go `Client.Completion` (openai.go), with the network call abstracted as
its `Except` result: on success the source executes
`resp.Content = r.Choices[0].Message.Content` unconditionally, so an empty
choice list is the out-of-range panic. -/
def Completion (backend : Except String ChatCompletionResponse) :
    Outcome Response :=
  match backend with
  | .error e => .err e
  | .ok r =>
    match r.choices with
    | [] => .panicked
    | ch :: _ => .ok { content := ch.message.content, usage := r.usage }

/-- The model names enumerated by the switch in `ImageCompletion`
(values of the `openai.GPT4...` SDK constants). -/
def imageModels : List String :=
  [ "gpt-4", "gpt-4o", "gpt-4o-2024-05-13", "gpt-4o-2024-08-06"
  , "gpt-4o-mini", "gpt-4o-mini-2024-07-18", "gpt-4-turbo-preview"
  , "gpt-4-vision-preview", "gpt-4-1106-preview", "gpt-4-0125-preview"
  , "gpt-4-turbo", "gpt-4-turbo-2024-04-09", "gpt-4-0314", "gpt-4-0613"
  , "gpt-4-32k", "gpt-4-32k-0314", "gpt-4-32k-0613" ]

/-- Go `Client.ImageCompletion` (openai.go), with the network call
abstracted: models outside the switch list get the unsupported-model
error; inside it the source indexes `r.Choices[0]` unconditionally. -/
def ImageCompletion (model : String)
    (backend : Except String ChatCompletionResponse) : Outcome Response :=
  if imageModels.contains model then
    match backend with
    | .error e => .err e
    | .ok r =>
      match r.choices with
      | [] => .panicked
      | ch :: _ => .ok { content := ch.message.content, usage := r.usage }
  else .err ("model " ++ model ++ " does not support image completions")

deriving instance DecidableEq for Except

/-- Value written to the token field by an option, when it writes it. -/
def tokenOf : Opt → Option String
  | .setToken s => some s
  | _ => none

/-- Value written to the orgID field by an option, when it writes it. -/
def orgIDOf : Opt → Option String
  | .setOrgID s => some s
  | _ => none

/-- Value written to the model field by an option, when it writes it. -/
def modelOf : Opt → Option String
  | .setModel s => some s
  | _ => none

/-- Value written to the proxyURL field by an option, when it writes it. -/
def proxyURLOf : Opt → Option String
  | .setProxyURL s => some s
  | _ => none

/-- Value written to the socksURL field by an option, when it writes it. -/
def socksURLOf : Opt → Option String
  | .setSocksURL s => some s
  | _ => none

/-- Value written to the baseURL field by an option, when it writes it. -/
def baseURLOf : Opt → Option String
  | .setBaseURL s => some s
  | _ => none

/-- Value written to the timeout field by an option, when it writes it. -/
def timeoutOf : Opt → Option Int
  | .setTimeout v => some v
  | _ => none

/-- Value written to the maxTokens field by an option, when it writes it. -/
def maxTokensOf : Opt → Option Int
  | .setMaxTokens v => some v
  | _ => none

/-- Value written to the temperature field by an option, when it writes it. -/
def temperatureOf : Opt → Option Rat
  | .setTemperature v => some v
  | _ => none

/-- Value written to the provider field by an option, when it writes it. -/
def providerOf : Opt → Option String
  | .setProvider s => some s
  | _ => none

/-- Value written to the skipVerify field by an option, when it writes it. -/
def skipVerifyOf : Opt → Option Bool
  | .setSkipVerify b => some b
  | _ => none

/-- Value written to the headers field by an option, when it writes it. -/
def headersOf : Opt → Option (List String)
  | .setHeaders hs => some hs
  | _ => none

/-- Value written to the apiVersion field by an option, when it writes it. -/
def apiVersionOf : Opt → Option String
  | .setApiVersion s => some s
  | _ => none

/-- Value written to the topP field by an option, when it writes it. -/
def topPOf : Opt → Option Rat
  | .setTopP v => some v
  | _ => none

/-- Value written to the presencePenalty field, when an option writes it. -/
def presencePenaltyOf : Opt → Option Rat
  | .setPresencePenalty v => some v
  | _ => none

/-- Value written to the frequencyPenalty field, when an option writes it. -/
def frequencyPenaltyOf : Opt → Option Rat
  | .setFrequencyPenalty v => some v
  | _ => none

/-- Last value written to one field by a list of options, or the start
value when none writes it. -/
def lastDef {α : Type} (f : Opt → Option α) (opts : List Opt) (d : α) : α :=
  opts.foldl (fun acc o => (f o).getD acc) d

/-- Modelled from the spec: the single pass over an option sequence that
keeps, for each configuration field, only the last value written to that
field (starting from `c`). The claim compares `applyOpts` against this. -/
def lastWriteOnePass (c : config) (opts : List Opt) : config :=
  { baseURL := lastDef baseURLOf opts c.baseURL
  , token := lastDef tokenOf opts c.token
  , orgID := lastDef orgIDOf opts c.orgID
  , model := lastDef modelOf opts c.model
  , proxyURL := lastDef proxyURLOf opts c.proxyURL
  , socksURL := lastDef socksURLOf opts c.socksURL
  , timeout := lastDef timeoutOf opts c.timeout
  , maxTokens := lastDef maxTokensOf opts c.maxTokens
  , temperature := lastDef temperatureOf opts c.temperature
  , topP := lastDef topPOf opts c.topP
  , presencePenalty := lastDef presencePenaltyOf opts c.presencePenalty
  , frequencyPenalty := lastDef frequencyPenaltyOf opts c.frequencyPenalty
  , provider := lastDef providerOf opts c.provider
  , skipVerify := lastDef skipVerifyOf opts c.skipVerify
  , headers := lastDef headersOf opts c.headers
  , apiVersion := lastDef apiVersionOf opts c.apiVersion }

/-! Helper lemmas shared by the claim theorems. -/

/-- A string has length zero exactly when it is empty (the Go code tests
`len(s) == 0`, the claims speak of the empty string). -/
theorem string_length_zero_iff (s : String) : s.length = 0 ↔ s = "" := by
  constructor
  · intro h
    cases s with
    | mk data =>
      cases data with
      | nil => decide
      | cons c cs => simp [String.length] at h
  · intro h
    subst h
    rfl

/-- Validation shape: with a non-empty token, `valid` always succeeds and
only ever rewrites the model field. -/
theorem valid_shape (cfg : config) (h : ¬ cfg.token = "") :
    ∃ m, valid cfg = .ok { cfg with model := m } := by
  unfold valid
  rw [if_neg h]
  by_cases h2 : cfg.provider = DEEPSEEK ∨ cfg.provider = DeepSeek
  · rw [if_pos h2]
    exact ⟨DeepseekChat, rfl⟩
  · rw [if_neg h2]
    by_cases h3 : cfg.provider = ZhiPu
    · rw [if_pos h3]
      by_cases h4 : cfg.model.length = 0
      · rw [if_pos h4]
        exact ⟨ZhiPuGlmFree, rfl⟩
      · rw [if_neg h4]
        exact ⟨cfg.model, rfl⟩
    · rw [if_neg h3]
      by_cases h5 : (cfg.provider = OpenAI ∨ cfg.provider = Azure) ∧ cfg.model.length = 0
      · rw [if_pos h5]
        exact ⟨defaultModel, rfl⟩
      · rw [if_neg h5]
        exact ⟨cfg.model, rfl⟩

/-- Validation fails exactly on the empty token. -/
theorem valid_error_iff (cfg : config) :
    valid cfg = .error .missingToken ↔ cfg.token = "" := by
  constructor
  · intro h
    by_cases ht : cfg.token = ""
    · exact ht
    · obtain ⟨m, hm⟩ := valid_shape cfg ht
      rw [hm] at h
      exact absurd h (by simp)
  · intro h
    unfold valid
    rw [if_pos h]

/-- Applying a list of options in order equals the single last-write pass,
field for field. -/
theorem applyOpts_eq_onePass (opts : List Opt) :
    ∀ c : config, applyOpts c opts = lastWriteOnePass c opts := by
  induction opts with
  | nil => intro c; rfl
  | cons o rest ih =>
    intro c
    rw [show applyOpts c (o :: rest) = applyOpts (o.apply c) rest from rfl, ih]
    cases o <;> rfl

/-- A `lastDef` pass either returns its start value for every start value,
or is independent of the start value. -/
theorem lastDef_cases {α : Type} (f : Opt → Option α) (opts : List Opt) :
    (∀ d, lastDef f opts d = d) ∨ (∀ d e, lastDef f opts d = lastDef f opts e) := by
  induction opts with
  | nil => exact .inl (fun d => rfl)
  | cons o rest ih =>
    cases h : f o with
    | none =>
      cases ih with
      | inl H =>
        refine .inl (fun d => ?_)
        show lastDef f rest ((f o).getD d) = d
        rw [h]
        exact H d
      | inr H =>
        refine .inr (fun d e => ?_)
        show lastDef f rest ((f o).getD d) = lastDef f rest ((f o).getD e)
        rw [h]
        exact H d e
    | some v =>
      refine .inr (fun d e => ?_)
      show lastDef f rest ((f o).getD d) = lastDef f rest ((f o).getD e)
      rw [h]
      rfl

/-- Feeding the result of a `lastDef` pass back in as the start value
changes nothing. -/
theorem lastDef_idem {α : Type} (f : Opt → Option α) (opts : List Opt) (d : α) :
    lastDef f opts (lastDef f opts d) = lastDef f opts d := by
  cases lastDef_cases f opts with
  | inl H => exact H _
  | inr H => exact H _ d

/-- Applying the same option sequence a second time is the identity. -/
theorem applyOpts_idem (c : config) (opts : List Opt) :
    applyOpts (applyOpts c opts) opts = applyOpts c opts := by
  simp only [applyOpts_eq_onePass]
  simp only [lastWriteOnePass, config.mk.injEq]
  refine ⟨?_, ?_, ?_, ?_, ?_, ?_, ?_, ?_, ?_, ?_, ?_, ?_, ?_, ?_, ?_, ?_⟩ <;>
    exact lastDef_idem _ _ _

/-! Claim theorems. -/

/-- C1: the claim states that `Completion` and `ImageCompletion` return the
EmptyResponse error on a backend response with zero candidates and never
index into the empty list. The code indexes `r.Choices[0]` unconditionally,
so at the failing input (empty choice list, nil error) both wrappers hit
the out-of-range panic instead of returning any error value; this theorem
evaluates the code at that input. -/
theorem claim1_empty_choices_panic :
    Completion (.ok { choices := [], usage := ⟨0, 0, 0⟩ }) = .panicked ∧
    ImageCompletion "gpt-4" (.ok { choices := [], usage := ⟨0, 0, 0⟩ }) = .panicked := by
  decide

/-- C2 counterexample: `WithProvider "deepseek"` keeps the tag `"deepseek"`
instead of normalising it to the default provider, and validation and
client assembly still run DeepSeek special cases (model forced to
`deepseek-chat`, built-in DeepSeek base URL), refuting the claim at the
concrete input `"deepseek"`. -/
theorem claim2_counterexample :
    ((WithProvider DeepSeek).apply baseConfig).provider = "deepseek" ∧
    ¬ ((WithProvider DeepSeek).apply baseConfig).provider = defaultProvider ∧
    valid { baseConfig with token := "t", provider := "deepseek", model := "m" } =
      .ok { baseConfig with token := "t", provider := "deepseek", model := DeepseekChat } ∧
    sdkBaseURL { baseConfig with token := "t", provider := "deepseek", model := DeepseekChat } =
      deepseekBaseURL := by
  decide

/-- C2 (amended): for every provider string outside the four recognised
tags (`openai`, `azure`, `deepseek`, `zhipu`) — including `"ollama"` —
`WithProvider` accepts it and normalises it to the default provider tag,
and for the default provider tag no special-case logic runs: validation
only substitutes the default model for an empty one, the provider switch
takes the OpenAI-compatible case, and the base URL is the caller override
or the official endpoint. -/
theorem claim2_unknown_provider_default (s : String) (c cfg : config)
    (h1 : ¬ s = OpenAI) (h2 : ¬ s = Azure) (h3 : ¬ s = DeepSeek) (h4 : ¬ s = ZhiPu)
    (htok : ¬ cfg.token = "") (hp : cfg.provider = defaultProvider) :
    ((WithProvider s).apply c).provider = defaultProvider ∧
    valid cfg = .ok (if cfg.model = "" then { cfg with model := defaultModel } else cfg) ∧
    providerCase cfg = .openaiCompatible ∧
    sdkBaseURL cfg = (if cfg.baseURL = "" then officialBaseURL else cfg.baseURL) := by
  have hc : providerCase cfg = .openaiCompatible := by
    unfold providerCase
    rw [hp]
    decide
  refine ⟨?_, ?_, hc, ?_⟩
  · simp [WithProvider, Opt.apply, h1, h2, h3, h4]
  · unfold valid
    rw [if_neg htok, hp]
    rw [if_neg (show ¬ (defaultProvider = DEEPSEEK ∨ defaultProvider = DeepSeek) by decide)]
    rw [if_neg (show ¬ defaultProvider = ZhiPu by decide)]
    by_cases hm : cfg.model = ""
    · rw [if_pos ⟨Or.inl (by decide), (string_length_zero_iff cfg.model).mpr hm⟩, if_pos hm]
    · rw [if_neg (fun hand => hm ((string_length_zero_iff cfg.model).mp hand.2)), if_neg hm]
  · simp only [sdkBaseURL, hc]

/-- C2 witness: the amended statement at the concrete alias `"ollama"` and
a concrete valid configuration. -/
theorem claim2_witness :
    ((WithProvider "ollama").apply baseConfig).provider = defaultProvider ∧
    valid { baseConfig with token := "t" } =
      .ok (if ({ baseConfig with token := "t" } : config).model = ""
           then { baseConfig with token := "t", model := defaultModel }
           else { baseConfig with token := "t" }) ∧
    providerCase { baseConfig with token := "t" } = .openaiCompatible ∧
    sdkBaseURL { baseConfig with token := "t" } =
      (if ({ baseConfig with token := "t" } : config).baseURL = "" then officialBaseURL
       else ({ baseConfig with token := "t" } : config).baseURL) :=
  claim2_unknown_provider_default "ollama" baseConfig { baseConfig with token := "t" }
    (by decide) (by decide) (by decide) (by decide) (by decide) rfl

/-- C3: validation fails with the MissingCredential error exactly when the
token is empty, and with a non-empty token, the default provider tag and an
empty model it succeeds and sets the model to the built-in default. -/
theorem claim3_validation (cfg : config) :
    (valid cfg = .error .missingToken ↔ cfg.token = "") ∧
    (¬ cfg.token = "" → cfg.provider = defaultProvider → cfg.model = "" →
      valid cfg = .ok { cfg with model := defaultModel }) := by
  refine ⟨valid_error_iff cfg, ?_⟩
  intro htok hp hm
  unfold valid
  rw [if_neg htok, hp]
  rw [if_neg (show ¬ (defaultProvider = DEEPSEEK ∨ defaultProvider = DeepSeek) by decide)]
  rw [if_neg (show ¬ defaultProvider = ZhiPu by decide)]
  rw [if_pos ⟨Or.inl (by decide), (string_length_zero_iff cfg.model).mpr hm⟩]

/-- C3 witness: the theorem at the all-defaults config (empty token) and at
a config whose token is `"x"`. -/
theorem claim3_witness :
    (valid baseConfig = .error .missingToken ↔ baseConfig.token = "") ∧
    valid { baseConfig with token := "x" } =
      .ok { baseConfig with token := "x", model := defaultModel } :=
  ⟨(claim3_validation baseConfig).1,
   (claim3_validation { baseConfig with token := "x" }).2 (by decide) rfl rfl⟩

/-- C4: applying an option sequence in order to the default configuration
equals the single pass that keeps, for each field, only the last value
written to it, and applying the same sequence again changes nothing
(last-write-wins and idempotency). -/
theorem claim4_last_write_wins (opts : List Opt) :
    newConfig opts = lastWriteOnePass baseConfig opts ∧
    applyOpts (newConfig opts) opts = newConfig opts :=
  ⟨applyOpts_eq_onePass opts baseConfig, applyOpts_idem baseConfig opts⟩

/-- C5: `WithTemperature` stores the built-in default temperature for every
value at or below zero and the literal value otherwise; `WithMaxTokens`
does the same with the default max-tokens. -/
theorem claim5_nonpositive_defaults (v : Rat) (n : Int) (c : config) :
    ((WithTemperature v).apply c).temperature =
      (if v ≤ 0 then defaultTemperature else v) ∧
    ((WithMaxTokens n).apply c).maxTokens =
      (if n ≤ 0 then defaultMaxTokens else n) :=
  ⟨rfl, rfl⟩

/-- C6: parsing the header list `["A=1", "B=2=3", "=x", "novalue", "C="]`
yields exactly the three entries A → 1, B → 2=3 and C → the empty value:
entries without an equals sign or with an empty key are dropped, the split
happens at the first equals sign only, and empty values are kept. -/
theorem claim6_header_parsing :
    NewHeaders ["A=1", "B=2=3", "=x", "novalue", "C="] =
      [("A", ["1"]), ("B", ["2=3"]), ("C", [""])] := by
  decide

/-- C7: with a validating config, when only the SOCKS5 address is set and
the dialer construction fails, `New` returns the ProxyUnreachable error at
construction time; when the HTTP proxy URL is set, `New` never returns
ProxyUnreachable and any constructed client uses the HTTP proxy transport,
so the SOCKS5 path (including its failure mode) is never taken. -/
theorem claim7_socks_proxy (parseURL : String → Option String)
    (socks5Dial : String → Except String Unit) (opts : List Opt)
    (htok : ¬ (newConfig opts).token = "") :
    ((newConfig opts).proxyURL = "" → ¬ (newConfig opts).socksURL = "" →
      ∀ e, socks5Dial (newConfig opts).socksURL = .error e →
        New parseURL socks5Dial opts =
          .error (.proxyUnreachable ("cannot connect to the proxy: " ++ e))) ∧
    (¬ (newConfig opts).proxyURL = "" →
      (∀ msg, ¬ New parseURL socks5Dial opts = .error (.proxyUnreachable msg)) ∧
      ∀ cl, New parseURL socks5Dial opts = .ok cl →
        cl.transport = .httpProxy (parseURL (newConfig opts).proxyURL)) := by
  obtain ⟨m, hv⟩ := valid_shape _ htok
  constructor
  · intro hp hs e he
    simp only [New, hv]
    simp [buildTransport, hp, hs, he]
  · intro hp
    have hbt : buildTransport parseURL socks5Dial { newConfig opts with model := m } =
        .ok (.httpProxy (parseURL (newConfig opts).proxyURL)) := by
      simp [buildTransport, hp]
    constructor
    · intro msg hmsg
      simp only [New, hv, hbt] at hmsg
      exact Except.noConfusion hmsg
    · intro cl hcl
      simp only [New, hv, hbt] at hcl
      injection hcl with h2
      subst h2
      rfl

/-- C7 witness: a config with token and a bad SOCKS5 address only, and a
dialer oracle that fails, produce the wrapped proxy error. -/
theorem claim7_witness :
    New (fun _ => none) (fun _ => .error "boom") [WithToken "t", WithSocksURL "bad"] =
      .error (.proxyUnreachable ("cannot connect to the proxy: " ++ "boom")) :=
  (claim7_socks_proxy (fun _ => none) (fun _ => .error "boom")
      [WithToken "t", WithSocksURL "bad"] (by decide)).1 rfl (by decide) "boom" rfl

/-- C10: with a validating config, a non-empty HTTP proxy URL — however
malformed, for any outcome of the URL parser — never makes `New` fail:
construction succeeds, and a ProxyUnreachable error can only ever arise
when no HTTP proxy URL is set and a SOCKS5 address is. -/
theorem claim10_http_proxy_never_fails (parseURL : String → Option String)
    (socks5Dial : String → Except String Unit) (opts : List Opt)
    (htok : ¬ (newConfig opts).token = "") (hp : ¬ (newConfig opts).proxyURL = "") :
    (∃ cl, New parseURL socks5Dial opts = .ok cl) ∧
    (∀ (pu : String → Option String) (su : String → Except String Unit)
        (os : List Opt) (msg : String),
      New pu su os = .error (.proxyUnreachable msg) →
        (newConfig os).proxyURL = "" ∧ ¬ (newConfig os).socksURL = "") := by
  constructor
  · obtain ⟨m, hv⟩ := valid_shape _ htok
    refine ⟨assemble { newConfig opts with model := m }
      (.httpProxy (parseURL (newConfig opts).proxyURL)), ?_⟩
    simp only [New, hv]
    simp [buildTransport, hp]
  · intro pu su os msg h
    by_cases ht : (newConfig os).token = ""
    · have hv : valid (newConfig os) = .error .missingToken := (valid_error_iff _).mpr ht
      simp only [New, hv] at h
      exact absurd h (by simp)
    · obtain ⟨m, hv⟩ := valid_shape _ ht
      simp only [New, hv] at h
      by_cases hpu : (newConfig os).proxyURL = ""
      · refine ⟨hpu, ?_⟩
        by_cases hsu : (newConfig os).socksURL = ""
        · exfalso
          simp [buildTransport, hpu, hsu] at h
        · exact hsu
      · exfalso
        simp [buildTransport, hpu] at h

/-- C10 witness: a malformed HTTP proxy URL (the parse oracle fails on it)
with a SOCKS5 address alongside and a failing dialer oracle still
constructs a client. -/
theorem claim10_witness :
    ∃ cl, New (fun _ => none) (fun _ => .error "x")
        [WithToken "t", WithProxyURL "not a url", WithSocksURL "also-set"] = .ok cl :=
  (claim10_http_proxy_never_fails (fun _ => none) (fun _ => .error "x")
    [WithToken "t", WithProxyURL "not a url", WithSocksURL "also-set"]
    (by decide) (by decide)).1

/-- C8: the chat-completion request builder always produces exactly the
two-message list [system, user], where the system text is the caller's
prompt or the default assistant prompt when the caller's prompt is empty,
and the user text is the caller's content. -/
theorem claim8_message_list (c : ClientModel) (prompt content : String) :
    (CreateChatCompletionRequest c prompt content).messages =
      [ { role := ChatMessageRoleSystem
        , content := if prompt = "" then defaultSystemPrompt else prompt }
      , { role := ChatMessageRoleUser, content := content } ] := by
  by_cases h : prompt = "" <;>
    simp [CreateChatCompletionRequest, string_length_zero_iff, h]

/-- C9: constructing a client with a token, provider `azure`, a base URL
and model `gpt-4` succeeds, and its Azure model-mapping function returns
`gpt-4` for every input model name. -/
theorem claim9_azure_model_mapping :
    ∃ cl : ClientModel,
      New (fun _ => none) (fun _ => .ok ())
          [WithToken "t", WithProvider "azure", WithBaseURL "https://x", WithModel "gpt-4"]
        = .ok cl ∧
      ∃ f, cl.azureMapper = some f ∧ ∀ m : String, f m = "gpt-4" :=
  ⟨_, rfl, _, rfl, fun _ => rfl⟩

end YsicingOpenAI
